import Mathlib

/-!
Verification of the blood-investigation analysis engine
(`reference_ranges.py`, `app.py`): reference catalog, per-parameter
threshold analysis, alias-based name resolution, panel report building,
manual-entry filtering, and the sample-quality heuristics.

Numeric values are embedded as rationals; Python `float` arithmetic on
the catalog's small decimal constants is exact, so `ℚ` is faithful here.
Optional thresholds (`None` in Python) are `Option ℚ`.
-/

/-- A raw value supplied for a parameter: either a number (the `float(value)`
parse in `analyze_parameter` succeeds) or text on which `float` raises
`ValueError`/`TypeError` (the `except` path). -/
inductive Value
  | num (q : ℚ)
  | unparseable (s : String)
deriving DecidableEq

/-- One catalog entry of a reference-range table
(e.g. `CBC_REFERENCE_RANGES['WBC']` in `reference_ranges.py`): normal
bounds, unit, critical bounds, aliases, and the optional sex-specific
bounds present on some entries. -/
structure RefInfo where
  low : Option ℚ
  high : Option ℚ
  unit : String
  critical_low : Option ℚ
  critical_high : Option ℚ
  aliases : List String
  male_low : Option ℚ := none
  male_high : Option ℚ := none
  female_low : Option ℚ := none
  female_high : Option ℚ := none
deriving DecidableEq

/-- Status classification produced by `analyze_parameter`
(`'Normal'`, `'Low'`, `'High'`, `'Critical Low'`, `'Critical High'`,
`'Unable to analyze'` — the last is the spec's `Unparseable`). -/
inductive Status
  | normal
  | low
  | high
  | criticalLow
  | criticalHigh
  | unableToAnalyze
deriving DecidableEq

/-- The result dictionary built by `analyze_parameter`. -/
structure AnalysisResult where
  name : String
  value : Value
  unit : String
  ref_low : Option ℚ
  ref_high : Option ℚ
  status : Status
  deviation_pct : Option ℚ
deriving DecidableEq

/-- Python `bound is not None and val < bound` (used for `critical_low`
and for `ref_low`). -/
def hitLow (bound : Option ℚ) (v : ℚ) : Bool :=
  match bound with
  | none => false
  | some b => decide (v < b)

/-- Python `bound is not None and val > bound` (used for `critical_high`
and for `ref_high`). -/
def hitHigh (bound : Option ℚ) (v : ℚ) : Bool :=
  match bound with
  | none => false
  | some b => decide (b < v)

/-- Low-side deviation: Python `if ref_low and ref_low > 0:
deviation = ((ref_low - val) / ref_low) * 100` (`ref_low` falsy when
`None` or `0.0`, and `ref_low > 0` subsumes nonzero). -/
def lowDeviation (lo : Option ℚ) (v : ℚ) : Option ℚ :=
  match lo with
  | none => none
  | some l => if 0 < l then some ((l - v) / l * 100) else none

/-- High-side deviation: Python `if ref_high and ref_high > 0:
deviation = ((val - ref_high) / ref_high) * 100`. -/
def highDeviation (hi : Option ℚ) (v : ℚ) : Option ℚ :=
  match hi with
  | none => none
  | some h => if 0 < h then some ((v - h) / h * 100) else none

/-- In-range position: Python `if ref_low is not None and ref_high is not
None and ref_high > ref_low: deviation = ((val - mid) / (range_span / 2))
* 100` with `mid = (ref_low + ref_high) / 2`, `range_span = ref_high -
ref_low`. -/
def normalDeviation (lo hi : Option ℚ) (v : ℚ) : Option ℚ :=
  match lo, hi with
  | some l, some h =>
      if l < h then some ((v - (l + h) / 2) / ((h - l) / 2) * 100) else none
  | _, _ => none

/-- `analyze_parameter(name, value, ref_info)` from `reference_ranges.py`:
builds the base result, parses the value, then walks the
critical-low / critical-high / low / high / normal `if`/`elif` chain. -/
def analyze_parameter (name : String) (value : Value) (ref_info : RefInfo) :
    AnalysisResult :=
  let base : AnalysisResult :=
    { name := name, value := value, unit := ref_info.unit,
      ref_low := ref_info.low, ref_high := ref_info.high,
      status := Status.normal, deviation_pct := none }
  match value with
  | Value.unparseable _ => { base with status := Status.unableToAnalyze }
  | Value.num val =>
      if hitLow ref_info.critical_low val then
        { base with status := Status.criticalLow,
                    deviation_pct := lowDeviation ref_info.low val }
      else if hitHigh ref_info.critical_high val then
        { base with status := Status.criticalHigh,
                    deviation_pct := highDeviation ref_info.high val }
      else if hitLow ref_info.low val then
        { base with status := Status.low,
                    deviation_pct := lowDeviation ref_info.low val }
      else if hitHigh ref_info.high val then
        { base with status := Status.high,
                    deviation_pct := highDeviation ref_info.high val }
      else
        { base with status := Status.normal,
                    deviation_pct :=
                      normalDeviation ref_info.low ref_info.high val }

/-- ASCII lower-casing of one character. Python's `str.lower()` agrees
with per-character ASCII lowering on every catalog key and alias (they
are all ASCII), so this is a faithful model of `.lower()` here. -/
def charLower (c : Char) : Char :=
  if 'A' ≤ c ∧ c ≤ 'Z' then Char.ofNat (c.toNat + 32) else c

/-- Python `s.lower()` (ASCII model, see `charLower`). -/
def pyLower (s : String) : String :=
  ⟨s.data.map charLower⟩

/-- Python `a.lower() == b.lower()`. -/
def lowerEq (a b : String) : Bool :=
  a.data.map charLower == b.data.map charLower

/-- Python `c.isspace()` for the ASCII whitespace characters. -/
def isSpaceChar (c : Char) : Bool :=
  c == ' ' || c == '\t' || c == '\n' || c == '\r'

/-- Python `s.strip()`: drop leading and trailing whitespace. -/
def pyStrip (s : String) : String :=
  ⟨((s.data.dropWhile isSpaceChar).reverse.dropWhile isSpaceChar).reverse⟩

/-- The per-entry match test inside `display_parameters_grid` (`app.py`):
`ref_key.lower() == param_name.lower() or any(alias.lower() ==
param_name.lower() for alias in ref_val.get('aliases', []))`. -/
def matchesEntry (param_name ref_key : String) (info : RefInfo) : Bool :=
  lowerEq ref_key param_name ||
    info.aliases.any (fun a => lowerEq a param_name)

/-- The reference-lookup loop of `display_parameters_grid`: scan the
table in insertion order, stop at the first matching entry. -/
def findRefInfo (ranges : List (String × RefInfo)) (param_name : String) :
    Option (String × RefInfo) :=
  ranges.find? (fun kv => matchesEntry param_name kv.1 kv.2)

/-- The `analysis_results` accumulation of `display_parameters_grid`:
parameters whose key resolves get analyzed and recorded; unresolved keys
are skipped (only an `Unknown` box is rendered for them). -/
def display_parameters_grid (ranges : List (String × RefInfo))
    (parameters : List (String × Value)) : List (String × AnalysisResult) :=
  parameters.filterMap (fun p =>
    match findRefInfo ranges p.1 with
    | some kv => some (p.1, analyze_parameter p.1 p.2 kv.2)
    | none => none)

/-- `manual_entry_form`'s final filter (`app.py` line 397):
`parameters = {k: v for k, v in parameters.items() if v > 0}`. -/
def manual_entry_filter (parameters : List (String × ℚ)) :
    List (String × ℚ) :=
  parameters.filter (fun p => 0 < p.2)

/-- `CBC_REFERENCE_RANGES['WBC']`. -/
def WBC_info : RefInfo :=
  { low := some 4.0, high := some 11.0, unit := "×10³/µL",
    critical_low := some 2.0, critical_high := some 30.0,
    aliases := ["White Blood Cell", "Leucocyte", "Leukocyte", "Total WBC"] }

/-- `CBC_REFERENCE_RANGES['RBC']`. -/
def RBC_info : RefInfo :=
  { low := some 4.0, high := some 5.5, unit := "×10⁶/µL",
    critical_low := some 2.0, critical_high := some 7.5,
    aliases := ["Red Blood Cell", "Erythrocyte", "Total RBC"],
    male_low := some 4.5, male_high := some 5.5,
    female_low := some 4.0, female_high := some 5.0 }

/-- `CBC_REFERENCE_RANGES['Hemoglobin']`. -/
def Hemoglobin_info : RefInfo :=
  { low := some 12.0, high := some 17.5, unit := "g/dL",
    critical_low := some 7.0, critical_high := some 20.0,
    aliases := ["Hb", "Hgb", "Haemoglobin"],
    male_low := some 13.5, male_high := some 17.5,
    female_low := some 12.0, female_high := some 15.5 }

/-- `CBC_REFERENCE_RANGES['Hematocrit']`. -/
def Hematocrit_info : RefInfo :=
  { low := some 36.0, high := some 54.0, unit := "%",
    critical_low := some 20.0, critical_high := some 60.0,
    aliases := ["HCT", "PCV", "Packed Cell Volume", "Haematocrit"],
    male_low := some 38.0, male_high := some 54.0,
    female_low := some 36.0, female_high := some 48.0 }

/-- `CBC_REFERENCE_RANGES['MCV']`. -/
def MCV_info : RefInfo :=
  { low := some 80.0, high := some 100.0, unit := "fL",
    critical_low := some 50.0, critical_high := some 130.0,
    aliases := ["Mean Corpuscular Volume"] }

/-- `CBC_REFERENCE_RANGES['MCH']`. -/
def MCH_info : RefInfo :=
  { low := some 27.0, high := some 33.0, unit := "pg",
    critical_low := some 15.0, critical_high := some 40.0,
    aliases := ["Mean Corpuscular Hemoglobin"] }

/-- `CBC_REFERENCE_RANGES['MCHC']`. -/
def MCHC_info : RefInfo :=
  { low := some 32.0, high := some 36.0, unit := "g/dL",
    critical_low := some 25.0, critical_high := some 38.0,
    aliases := ["Mean Corpuscular Hemoglobin Concentration"] }

/-- `CBC_REFERENCE_RANGES['RDW']`. -/
def RDW_info : RefInfo :=
  { low := some 11.5, high := some 14.5, unit := "%",
    critical_low := none, critical_high := some 25.0,
    aliases := ["Red Cell Distribution Width", "RDW-CV"] }

/-- `CBC_REFERENCE_RANGES['Platelet Count']`. -/
def Platelet_info : RefInfo :=
  { low := some 150.0, high := some 400.0, unit := "×10³/µL",
    critical_low := some 50.0, critical_high := some 1000.0,
    aliases := ["PLT", "Platelets", "Thrombocyte Count"] }

/-- `CBC_REFERENCE_RANGES['MPV']`. -/
def MPV_info : RefInfo :=
  { low := some 6.0, high := some 12.0, unit := "fL",
    critical_low := none, critical_high := none,
    aliases := ["Mean Platelet Volume"] }

/-- `CBC_REFERENCE_RANGES['Neutrophils']`. -/
def Neutrophils_info : RefInfo :=
  { low := some 40.0, high := some 70.0, unit := "%",
    critical_low := none, critical_high := none,
    aliases := ["Neut", "Segmented Neutrophils", "Segs"] }

/-- `CBC_REFERENCE_RANGES['Lymphocytes']`. -/
def Lymphocytes_info : RefInfo :=
  { low := some 20.0, high := some 40.0, unit := "%",
    critical_low := none, critical_high := none,
    aliases := ["Lymph"] }

/-- `CBC_REFERENCE_RANGES['Monocytes']`. -/
def Monocytes_info : RefInfo :=
  { low := some 2.0, high := some 8.0, unit := "%",
    critical_low := none, critical_high := none,
    aliases := ["Mono"] }

/-- `CBC_REFERENCE_RANGES['Eosinophils']`. -/
def Eosinophils_info : RefInfo :=
  { low := some 1.0, high := some 4.0, unit := "%",
    critical_low := none, critical_high := none,
    aliases := ["Eos"] }

/-- `CBC_REFERENCE_RANGES['Basophils']`. -/
def Basophils_info : RefInfo :=
  { low := some 0.0, high := some 1.0, unit := "%",
    critical_low := none, critical_high := none,
    aliases := ["Baso"] }

/-- `CBC_REFERENCE_RANGES['Reticulocyte Count']`. -/
def Reticulocyte_info : RefInfo :=
  { low := some 0.5, high := some 2.5, unit := "%",
    critical_low := none, critical_high := none,
    aliases := ["Retic", "Reticulocytes"] }

/-- `CBC_REFERENCE_RANGES['ESR']`. -/
def ESR_info : RefInfo :=
  { low := some 0.0, high := some 20.0, unit := "mm/hr",
    critical_low := none, critical_high := none,
    aliases := ["Erythrocyte Sedimentation Rate"],
    male_low := some 0, male_high := some 15,
    female_low := some 0, female_high := some 20 }

/-- `CBC_REFERENCE_RANGES` as an insertion-ordered association list
(Python dict iteration order is insertion order). -/
def CBC_REFERENCE_RANGES : List (String × RefInfo) :=
  [("WBC", WBC_info), ("RBC", RBC_info), ("Hemoglobin", Hemoglobin_info),
   ("Hematocrit", Hematocrit_info), ("MCV", MCV_info), ("MCH", MCH_info),
   ("MCHC", MCHC_info), ("RDW", RDW_info), ("Platelet Count", Platelet_info),
   ("MPV", MPV_info), ("Neutrophils", Neutrophils_info),
   ("Lymphocytes", Lymphocytes_info), ("Monocytes", Monocytes_info),
   ("Eosinophils", Eosinophils_info), ("Basophils", Basophils_info),
   ("Reticulocyte Count", Reticulocyte_info), ("ESR", ESR_info)]


/-- `LFT_REFERENCE_RANGES` from `reference_ranges.py`. -/
def LFT_REFERENCE_RANGES : List (String × RefInfo) :=
  [("Total Bilirubin",
    { low := some 0.1, high := some 1.2, unit := "mg/dL",
      critical_low := none, critical_high := some 15.0,
      aliases := ["T. Bilirubin", "Bil Total"] }),
   ("Direct Bilirubin",
    { low := some 0.0, high := some 0.3, unit := "mg/dL",
      critical_low := none, critical_high := some 10.0,
      aliases := ["D. Bilirubin", "Conjugated Bilirubin"] }),
   ("Indirect Bilirubin",
    { low := some 0.1, high := some 0.9, unit := "mg/dL",
      critical_low := none, critical_high := none,
      aliases := ["Unconjugated Bilirubin"] }),
   ("AST",
    { low := some 5.0, high := some 40.0, unit := "U/L",
      critical_low := none, critical_high := some 1000.0,
      aliases := ["SGOT", "Aspartate Aminotransferase"] }),
   ("ALT",
    { low := some 5.0, high := some 40.0, unit := "U/L",
      critical_low := none, critical_high := some 1000.0,
      aliases := ["SGPT", "Alanine Aminotransferase"] }),
   ("ALP",
    { low := some 44.0, high := some 147.0, unit := "U/L",
      critical_low := none, critical_high := none,
      aliases := ["Alkaline Phosphatase"] }),
   ("GGT",
    { low := some 0.0, high := some 60.0, unit := "U/L",
      critical_low := none, critical_high := none,
      aliases := ["Gamma GT", "Gamma Glutamyl Transferase"] }),
   ("Total Protein",
    { low := some 6.0, high := some 8.3, unit := "g/dL",
      critical_low := some 4.0, critical_high := none,
      aliases := ["T. Protein"] }),
   ("Albumin",
    { low := some 3.5, high := some 5.5, unit := "g/dL",
      critical_low := some 2.0, critical_high := none,
      aliases := ["Alb"] }),
   ("Globulin",
    { low := some 2.0, high := some 3.5, unit := "g/dL",
      critical_low := none, critical_high := none,
      aliases := ["Glob"] }),
   ("A/G Ratio",
    { low := some 1.0, high := some 2.5, unit := "",
      critical_low := none, critical_high := none,
      aliases := ["Albumin/Globulin Ratio"] })]

/-- `KFT_REFERENCE_RANGES` from `reference_ranges.py`. -/
def KFT_REFERENCE_RANGES : List (String × RefInfo) :=
  [("BUN",
    { low := some 7.0, high := some 20.0, unit := "mg/dL",
      critical_low := none, critical_high := some 100.0,
      aliases := ["Blood Urea Nitrogen", "Urea"] }),
   ("Creatinine",
    { low := some 0.6, high := some 1.2, unit := "mg/dL",
      critical_low := none, critical_high := some 10.0,
      aliases := ["Creat", "Serum Creatinine"],
      male_low := some 0.7, male_high := some 1.3,
      female_low := some 0.6, female_high := some 1.1 }),
   ("Uric Acid",
    { low := some 3.0, high := some 7.0, unit := "mg/dL",
      critical_low := none, critical_high := some 13.0,
      aliases := ["Urate"],
      male_low := some 3.5, male_high := some 7.2,
      female_low := some 2.6, female_high := some 6.0 }),
   ("eGFR",
    { low := some 90.0, high := some 120.0, unit := "mL/min/1.73m²",
      critical_low := some 15.0, critical_high := none,
      aliases := ["Estimated GFR", "Glomerular Filtration Rate"] }),
   ("Sodium",
    { low := some 136.0, high := some 145.0, unit := "mEq/L",
      critical_low := some 120.0, critical_high := some 160.0,
      aliases := ["Na", "Na+"] }),
   ("Potassium",
    { low := some 3.5, high := some 5.0, unit := "mEq/L",
      critical_low := some 2.5, critical_high := some 6.5,
      aliases := ["K", "K+"] }),
   ("Chloride",
    { low := some 98.0, high := some 106.0, unit := "mEq/L",
      critical_low := some 80.0, critical_high := some 120.0,
      aliases := ["Cl", "Cl-"] }),
   ("Calcium",
    { low := some 8.5, high := some 10.5, unit := "mg/dL",
      critical_low := some 6.0, critical_high := some 13.0,
      aliases := ["Ca", "Ca++", "Total Calcium"] }),
   ("Phosphorus",
    { low := some 2.5, high := some 4.5, unit := "mg/dL",
      critical_low := some 1.0, critical_high := some 8.0,
      aliases := ["Phosphate", "PO4"] })]

/-- `HBA1C_REFERENCE_RANGES` from `reference_ranges.py`. -/
def HBA1C_REFERENCE_RANGES : List (String × RefInfo) :=
  [("HbA1c",
    { low := some 4.0, high := some 5.6, unit := "%",
      critical_low := none, critical_high := some 14.0,
      aliases := ["Glycated Hemoglobin", "A1c", "Glycosylated Hemoglobin"] }),
   ("Estimated Average Glucose",
    { low := some 70.0, high := some 126.0, unit := "mg/dL",
      critical_low := none, critical_high := none,
      aliases := ["eAG", "Average Glucose"] })]

/-- `LIPID_PROFILE_REFERENCE_RANGES` from `reference_ranges.py`. -/
def LIPID_PROFILE_REFERENCE_RANGES : List (String × RefInfo) :=
  [("Total Cholesterol",
    { low := some 0.0, high := some 200.0, unit := "mg/dL",
      critical_low := none, critical_high := some 400.0,
      aliases := ["TC", "Cholesterol Total"] }),
   ("LDL",
    { low := some 0.0, high := some 100.0, unit := "mg/dL",
      critical_low := none, critical_high := some 300.0,
      aliases := ["LDL Cholesterol", "Low Density Lipoprotein", "LDL-C"] }),
   ("HDL",
    { low := some 40.0, high := some 60.0, unit := "mg/dL",
      critical_low := none, critical_high := none,
      aliases := ["HDL Cholesterol", "High Density Lipoprotein", "HDL-C"],
      male_low := some 40.0, female_low := some 50.0 }),
   ("Triglycerides",
    { low := some 0.0, high := some 150.0, unit := "mg/dL",
      critical_low := none, critical_high := some 500.0,
      aliases := ["TG", "Triacylglycerol"] }),
   ("VLDL",
    { low := some 2.0, high := some 30.0, unit := "mg/dL",
      critical_low := none, critical_high := none,
      aliases := ["VLDL Cholesterol", "Very Low Density Lipoprotein"] }),
   ("TC/HDL Ratio",
    { low := some 0.0, high := some 5.0, unit := "",
      critical_low := none, critical_high := none,
      aliases := ["Cholesterol/HDL Ratio"] })]

/-- `IRON_STUDIES_REFERENCE_RANGES` from `reference_ranges.py`. -/
def IRON_STUDIES_REFERENCE_RANGES : List (String × RefInfo) :=
  [("Serum Iron",
    { low := some 60.0, high := some 170.0, unit := "µg/dL",
      critical_low := none, critical_high := none,
      aliases := ["Iron", "Fe"],
      male_low := some 65.0, male_high := some 175.0,
      female_low := some 50.0, female_high := some 170.0 }),
   ("TIBC",
    { low := some 250.0, high := some 370.0, unit := "µg/dL",
      critical_low := none, critical_high := none,
      aliases := ["Total Iron Binding Capacity"] }),
   ("Ferritin",
    { low := some 12.0, high := some 300.0, unit := "ng/mL",
      critical_low := none, critical_high := some 1000.0,
      aliases := ["Serum Ferritin"],
      male_low := some 20.0, male_high := some 300.0,
      female_low := some 12.0, female_high := some 150.0 }),
   ("Transferrin Saturation",
    { low := some 20.0, high := some 50.0, unit := "%",
      critical_low := none, critical_high := none,
      aliases := ["TSAT", "Iron Saturation"] })]

/-- `TFT_REFERENCE_RANGES` from `reference_ranges.py`. -/
def TFT_REFERENCE_RANGES : List (String × RefInfo) :=
  [("TSH",
    { low := some 0.4, high := some 4.0, unit := "mIU/L",
      critical_low := some 0.01, critical_high := some 50.0,
      aliases := ["Thyroid Stimulating Hormone", "Thyrotropin"] }),
   ("Free T3",
    { low := some 2.3, high := some 4.2, unit := "pg/mL",
      critical_low := none, critical_high := none,
      aliases := ["FT3", "Free Triiodothyronine"] }),
   ("Free T4",
    { low := some 0.8, high := some 1.8, unit := "ng/dL",
      critical_low := none, critical_high := none,
      aliases := ["FT4", "Free Thyroxine"] }),
   ("Total T3",
    { low := some 80.0, high := some 200.0, unit := "ng/dL",
      critical_low := none, critical_high := none,
      aliases := ["T3 Total"] }),
   ("Total T4",
    { low := some 5.0, high := some 12.0, unit := "µg/dL",
      critical_low := none, critical_high := none,
      aliases := ["T4 Total"] })]

/-- All seven panel tables, mirroring `get_reference_for_panel` in
`app.py`. -/
def ALL_TABLES : List (List (String × RefInfo)) :=
  [CBC_REFERENCE_RANGES, LFT_REFERENCE_RANGES, KFT_REFERENCE_RANGES,
   HBA1C_REFERENCE_RANGES, LIPID_PROFILE_REFERENCE_RANGES,
   IRON_STUDIES_REFERENCE_RANGES, TFT_REFERENCE_RANGES]

/-- Python `cbc_params.get(k, 0)`. -/
def getD0 (ps : List (String × ℚ)) (k : String) : ℚ :=
  (ps.lookup k).getD 0

/-- Python `x or y` on floats: `x` when truthy (nonzero), else `y`. -/
def pyOr (x y : ℚ) : ℚ :=
  if x = 0 then y else x

/-- Tags for the strings appended to `issues` / `quality_notes` in
`get_sample_quality_assessment`; each constructor stands for one
`append` site and carries the numbers interpolated into the message. -/
inductive QualityMsg
  | ruleOfThreesHbIssue (expected actual deviation : ℚ)
  | ruleOfThreesHbPass (rbc expected actual : ℚ)
  | ruleOfThreesHctIssue (expected actual deviation : ℚ)
  | ruleOfThreesHctPass (hb expected actual : ℚ)
  | mchcHigh (mchc : ℚ)
  | mchcLow (mchc : ℚ)
  | calcHctMismatch (calculated reported deviation : ℚ)
  | diffSumIssue (total : ℚ)
  | diffSumPass (total : ℚ)
deriving DecidableEq

/-- Rule of Threes, RBC × 3 ≈ Hb (`reference_ranges.py` lines 379-385):
returns the (issues, notes) this block appends. -/
def ruleOfThreesHb (rbc hb : ℚ) : List QualityMsg × List QualityMsg :=
  if 0 < rbc ∧ 0 < hb then
    let expected_hb := rbc * 3
    let hb_deviation :=
      if 0 < expected_hb then |hb - expected_hb| / expected_hb * 100 else 0
    if 10 < hb_deviation then
      ([QualityMsg.ruleOfThreesHbIssue expected_hb hb hb_deviation], [])
    else
      ([], [QualityMsg.ruleOfThreesHbPass rbc expected_hb hb])
  else ([], [])

/-- Rule of Threes, Hb × 3 ≈ HCT (lines 387-393). -/
def ruleOfThreesHct (hb hct : ℚ) : List QualityMsg × List QualityMsg :=
  if 0 < hb ∧ 0 < hct then
    let expected_hct := hb * 3
    let hct_deviation :=
      if 0 < expected_hct then |hct - expected_hct| / expected_hct * 100 else 0
    if 10 < hct_deviation then
      ([QualityMsg.ruleOfThreesHctIssue expected_hct hct hct_deviation], [])
    else
      ([], [QualityMsg.ruleOfThreesHctPass hb expected_hct hct])
  else ([], [])

/-- MCHC sanity check (lines 396-400). -/
def mchcCheck (mchc : ℚ) : List QualityMsg :=
  if 0 < mchc then
    if 37 < mchc then [QualityMsg.mchcHigh mchc]
    else if mchc < 30 then [QualityMsg.mchcLow mchc]
    else []
  else []

/-- Calculated-vs-reported hematocrit check (lines 403-408). -/
def calcHctCheck (rbc hb hct mcv : ℚ) : List QualityMsg :=
  if 0 < hb ∧ 0 < rbc ∧ 0 < mcv then
    let calculated_hct := rbc * mcv / 10
    if 0 < hct then
      let calc_deviation :=
        if 0 < calculated_hct then |hct - calculated_hct| / calculated_hct * 100
        else 0
      if 10 < calc_deviation then
        [QualityMsg.calcHctMismatch calculated_hct hct calc_deviation]
      else []
    else []
  else []

/-- WBC differential sum check (lines 411-418; the pass-note append on
line 418 is cut mid-string in the file but its branch structure is
visible). -/
def diffSumCheck (diff_sum : ℚ) : List QualityMsg × List QualityMsg :=
  if 0 < diff_sum then
    if 5 < |diff_sum - 100| then ([QualityMsg.diffSumIssue diff_sum], [])
    else ([], [QualityMsg.diffSumPass diff_sum])
  else ([], [])

/-- The full (issues, quality_notes) computation of
`get_sample_quality_assessment` as present in `reference_ranges.py`:
parameter extraction with `get(..., 0)` and `or`-chains, then the five
checks appending in source order. -/
def quality_issues_notes (cbc_params : List (String × ℚ)) :
    List QualityMsg × List QualityMsg :=
  let rbc := getD0 cbc_params "RBC"
  let hb := pyOr (getD0 cbc_params "Hemoglobin")
      (pyOr (getD0 cbc_params "Hb") (getD0 cbc_params "Hgb"))
  let hct := pyOr (getD0 cbc_params "Hematocrit")
      (pyOr (getD0 cbc_params "HCT") (getD0 cbc_params "PCV"))
  let mcv := getD0 cbc_params "MCV"
  let mchc := getD0 cbc_params "MCHC"
  let diff_sum :=
    (["Neutrophils", "Lymphocytes", "Monocytes", "Eosinophils",
      "Basophils"].map (getD0 cbc_params)).sum
  let p1 := ruleOfThreesHb rbc hb
  let p2 := ruleOfThreesHct hb hct
  let i3 := mchcCheck mchc
  let i4 := calcHctCheck rbc hb hct mcv
  let p5 := diffSumCheck diff_sum
  (p1.1 ++ p2.1 ++ i3 ++ i4 ++ p5.1, p1.2 ++ p2.2 ++ p5.2)

/-- The structure returned by `get_sample_quality_assessment`. -/
structure QualityAssessment where
  is_reliable : Bool
  issues : List QualityMsg
  notes : List QualityMsg
deriving DecidableEq

/-- Modelled from the spec: the source file `reference_ranges.py` is cut
off inside `get_sample_quality_assessment` (after the differential-sum
branch), so the function's return statement is missing from the source;
per spec §4.5 the output is `{isReliable: bool (true iff zero issues),
issues, notes}`. The issues/notes themselves come from the source, see
`quality_issues_notes`. -/
def get_sample_quality_assessment (cbc_params : List (String × ℚ)) :
    QualityAssessment :=
  let p := quality_issues_notes cbc_params
  { is_reliable := p.1.isEmpty, issues := p.1, notes := p.2 }

lemma hitLow_eq_true {b : Option ℚ} {v : ℚ} :
    hitLow b v = true ↔ ∃ x, b = some x ∧ v < x := by
  cases b <;> simp [hitLow]

lemma hitLow_eq_false {b : Option ℚ} {v : ℚ} :
    hitLow b v = false ↔ ∀ x, b = some x → x ≤ v := by
  cases b <;> simp [hitLow]

lemma hitHigh_eq_true {b : Option ℚ} {v : ℚ} :
    hitHigh b v = true ↔ ∃ x, b = some x ∧ x < v := by
  cases b <;> simp [hitHigh]

lemma hitHigh_eq_false {b : Option ℚ} {v : ℚ} :
    hitHigh b v = false ↔ ∀ x, b = some x → v ≤ x := by
  cases b <;> simp [hitHigh]

/-- C1: `analyze_parameter` evaluates thresholds in strict precedence
critical-low → critical-high → low → high → normal, first match wins:
if `critical_low` is set and the value is below it the status is
`Critical Low` wherever `low`/`high` fall; `critical_high` is checked
next; and a plain Low/High/Normal status is only ever produced when
neither critical condition applies. -/
theorem c1_critical_precedence :
    (∀ (n : String) (v : ℚ) (e : RefInfo) (cl : ℚ),
        e.critical_low = some cl → v < cl →
        (analyze_parameter n (Value.num v) e).status = Status.criticalLow)
  ∧ (∀ (n : String) (v : ℚ) (e : RefInfo) (ch : ℚ),
        (∀ cl, e.critical_low = some cl → cl ≤ v) →
        e.critical_high = some ch → ch < v →
        (analyze_parameter n (Value.num v) e).status = Status.criticalHigh)
  ∧ (∀ (n : String) (v : ℚ) (e : RefInfo),
        ((analyze_parameter n (Value.num v) e).status = Status.low ∨
         (analyze_parameter n (Value.num v) e).status = Status.high ∨
         (analyze_parameter n (Value.num v) e).status = Status.normal) →
        (∀ cl, e.critical_low = some cl → cl ≤ v) ∧
        (∀ ch, e.critical_high = some ch → v ≤ ch)) := by
  refine ⟨?_, ?_, ?_⟩
  · intro n v e cl hcl hlt
    have h1 : hitLow e.critical_low v = true := hitLow_eq_true.mpr ⟨cl, hcl, hlt⟩
    simp [analyze_parameter, h1]
  · intro n v e ch hcl hch hlt
    have h1 : hitLow e.critical_low v = false := hitLow_eq_false.mpr hcl
    have h2 : hitHigh e.critical_high v = true := hitHigh_eq_true.mpr ⟨ch, hch, hlt⟩
    simp [analyze_parameter, h1, h2]
  · intro n v e hst
    by_cases h1 : hitLow e.critical_low v
    · simp [analyze_parameter, h1] at hst
    · by_cases h2 : hitHigh e.critical_high v
      · simp [analyze_parameter, h1, h2] at hst
      · exact ⟨hitLow_eq_false.mp (Bool.eq_false_iff.mpr h1),
          fun ch hch => (hitHigh_eq_false.mp (Bool.eq_false_iff.mpr h2)) ch hch⟩

/-- Witness for C1 at a concrete input: WBC = 1 is below both the
critical low 2.0 and the plain low 4.0, and the status is Critical Low. -/
theorem c1_critical_precedence_witness :
    WBC_info.critical_low = some 2.0 ∧ (1 : ℚ) < 2.0 ∧
    (analyze_parameter "WBC" (Value.num 1) WBC_info).status =
      Status.criticalLow :=
  ⟨rfl, by norm_num,
    c1_critical_precedence.1 "WBC" 1 WBC_info 2.0 rfl (by norm_num)⟩

/-- C2: an unparseable value yields status `Unable to analyze` (the
spec's `Unparseable`) with no deviation and no threshold evaluation, and
report building is pointwise, so the other parameters' processing is
unaffected (`display_parameters_grid` distributes over list append). -/
theorem c2_unparseable_value :
    (∀ (n s : String) (e : RefInfo),
        (analyze_parameter n (Value.unparseable s) e).status =
          Status.unableToAnalyze ∧
        (analyze_parameter n (Value.unparseable s) e).deviation_pct = none)
  ∧ (∀ (ranges : List (String × RefInfo)) (l₁ l₂ : List (String × Value)),
        display_parameters_grid ranges (l₁ ++ l₂) =
          display_parameters_grid ranges l₁ ++
            display_parameters_grid ranges l₂) := by
  refine ⟨?_, ?_⟩
  · intro n s e
    exact ⟨rfl, rfl⟩
  · intro ranges l₁ l₂
    simp [display_parameters_grid]

/-- C3 (code evaluated at the claim's failing input): `analyze_parameter`
has no sex input; analyzing Hemoglobin = 13.0 reports the unisex high
17.5 as the effective bound (not the catalog's female-specific 15.5),
Hemoglobin = 16.0 — above the female-specific high — is still classified
Normal, and the analysis is invariant under arbitrary changes to an
entry's sex-specific fields, which are never read. -/
theorem c3_sex_bounds_ignored :
    (analyze_parameter "Hemoglobin" (Value.num 13) Hemoglobin_info).ref_high =
      some 17.5
  ∧ Hemoglobin_info.female_high = some 15.5
  ∧ (analyze_parameter "Hemoglobin" (Value.num 16) Hemoglobin_info).status =
      Status.normal
  ∧ ∀ (n : String) (v : Value) (e : RefInfo) (a b c d : Option ℚ),
      analyze_parameter n v
        { e with male_low := a, male_high := b,
                 female_low := c, female_high := d } =
        analyze_parameter n v e := by
  refine ⟨?_, rfl, ?_, ?_⟩
  · norm_num [analyze_parameter, hitLow, hitHigh, Hemoglobin_info,
      normalDeviation]
  · norm_num [analyze_parameter, hitLow, hitHigh, Hemoglobin_info,
      normalDeviation]
  · intro n v e a b c d
    cases v <;> rfl

/-- C4 counterexample: WBC = 3 lies below the reference range [4, 11],
yet the reported deviation is +25, not a negative number — refuting
"deviation is negative when the value lies below the reference range". -/
theorem c4_counterexample :
    (analyze_parameter "WBC" (Value.num 3) WBC_info).status = Status.low
  ∧ (analyze_parameter "WBC" (Value.num 3) WBC_info).deviation_pct = some 25
  ∧ ¬ (25 : ℚ) < 0 := by
  refine ⟨?_, ?_, by norm_num⟩ <;>
    norm_num [analyze_parameter, hitLow, hitHigh, lowDeviation, WBC_info]

lemma low_side_deviation_eq (n : String) (e : RefInfo) (l v : ℚ)
    (hl : e.low = some l) (hpos : 0 < l) (hv : v < l)
    (hch : ∀ ch, e.critical_high = some ch → v ≤ ch) :
    (analyze_parameter n (Value.num v) e).deviation_pct =
      some ((l - v) / l * 100) := by
  have h2 : hitHigh e.critical_high v = false := hitHigh_eq_false.mpr hch
  have h3 : hitLow e.low v = true := hitLow_eq_true.mpr ⟨l, hl, hv⟩
  have hdev : lowDeviation e.low v = some ((l - v) / l * 100) := by
    rw [hl]; simp [lowDeviation, hpos]
  by_cases h1 : hitLow e.critical_low v
  · simp [analyze_parameter, h1, hdev]
  · simp [analyze_parameter, h1, h2, h3, hdev]

lemma high_side_deviation_eq (n : String) (e : RefInfo) (h v : ℚ)
    (hh : e.high = some h) (hpos : 0 < h) (hv : h < v)
    (hcl : ∀ cl, e.critical_low = some cl → cl ≤ v)
    (hlo : ∀ l, e.low = some l → l ≤ v) :
    (analyze_parameter n (Value.num v) e).deviation_pct =
      some ((v - h) / h * 100) := by
  have h1 : hitLow e.critical_low v = false := hitLow_eq_false.mpr hcl
  have h3 : hitLow e.low v = false := hitLow_eq_false.mpr hlo
  have h4 : hitHigh e.high v = true := hitHigh_eq_true.mpr ⟨h, hh, hv⟩
  have hdev : highDeviation e.high v = some ((v - h) / h * 100) := by
    rw [hh]; simp [highDeviation, hpos]
  by_cases h2 : hitHigh e.critical_high v
  · simp [analyze_parameter, h1, h2, hdev]
  · simp [analyze_parameter, h1, h2, h3, h4, hdev]

/-- C4 amended: whenever a deviation is reported for an out-of-range
value it is positive on both sides — `(low - value)/low·100` below the
range (not a negative number) and `(value - high)/high·100` above — and
for fixed bounds its magnitude strictly increases as the value moves
further outside the range. -/
theorem c4_amended_deviation :
    (∀ (n : String) (e : RefInfo) (l v : ℚ),
        e.low = some l → 0 < l → v < l →
        (∀ ch, e.critical_high = some ch → v ≤ ch) →
        (analyze_parameter n (Value.num v) e).deviation_pct =
          some ((l - v) / l * 100) ∧ 0 < (l - v) / l * 100)
  ∧ (∀ (n : String) (e : RefInfo) (h v : ℚ),
        e.high = some h → 0 < h → h < v →
        (∀ cl, e.critical_low = some cl → cl ≤ v) →
        (∀ l, e.low = some l → l ≤ v) →
        (analyze_parameter n (Value.num v) e).deviation_pct =
          some ((v - h) / h * 100) ∧ 0 < (v - h) / h * 100)
  ∧ (∀ (n : String) (e : RefInfo) (l v₁ v₂ : ℚ),
        e.low = some l → 0 < l → v₁ < v₂ → v₂ < l →
        (∀ ch, e.critical_high = some ch → v₂ ≤ ch) →
        ∃ d₁ d₂,
          (analyze_parameter n (Value.num v₁) e).deviation_pct = some d₁ ∧
          (analyze_parameter n (Value.num v₂) e).deviation_pct = some d₂ ∧
          d₂ < d₁)
  ∧ (∀ (n : String) (e : RefInfo) (h v₁ v₂ : ℚ),
        e.high = some h → 0 < h → h < v₁ → v₁ < v₂ →
        (∀ cl, e.critical_low = some cl → cl ≤ v₁) →
        (∀ l, e.low = some l → l ≤ v₁) →
        ∃ d₁ d₂,
          (analyze_parameter n (Value.num v₁) e).deviation_pct = some d₁ ∧
          (analyze_parameter n (Value.num v₂) e).deviation_pct = some d₂ ∧
          d₁ < d₂) := by
  refine ⟨?_, ?_, ?_, ?_⟩
  · intro n e l v hl hpos hv hch
    exact ⟨low_side_deviation_eq n e l v hl hpos hv hch,
      mul_pos (div_pos (by linarith) hpos) (by norm_num)⟩
  · intro n e h v hh hpos hv hcl hlo
    exact ⟨high_side_deviation_eq n e h v hh hpos hv hcl hlo,
      mul_pos (div_pos (by linarith) hpos) (by norm_num)⟩
  · intro n e l v₁ v₂ hl hpos h12 hv2 hch
    refine ⟨(l - v₁) / l * 100, (l - v₂) / l * 100,
      low_side_deviation_eq n e l v₁ hl hpos (by linarith)
        (fun ch hc => le_trans (le_of_lt h12) (hch ch hc)),
      low_side_deviation_eq n e l v₂ hl hpos hv2 hch, ?_⟩
    have hd : (l - v₂) / l < (l - v₁) / l :=
      (div_lt_div_iff_of_pos_right hpos).mpr (by linarith)
    exact mul_lt_mul_of_pos_right hd (by norm_num)
  · intro n e h v₁ v₂ hh hpos hv1 h12 hcl hlo
    refine ⟨(v₁ - h) / h * 100, (v₂ - h) / h * 100,
      high_side_deviation_eq n e h v₁ hh hpos hv1 hcl hlo,
      high_side_deviation_eq n e h v₂ hh hpos (by linarith)
        (fun cl hc => le_trans (hcl cl hc) (le_of_lt h12))
        (fun l hlw => le_trans (hlo l hlw) (le_of_lt h12)), ?_⟩
    have hd : (v₁ - h) / h < (v₂ - h) / h :=
      (div_lt_div_iff_of_pos_right hpos).mpr (by linarith)
    exact mul_lt_mul_of_pos_right hd (by norm_num)

/-- Witness for C4 amended at WBC = 3 (below the range [4, 11]):
deviation is `(4 - 3)/4·100 = 25 > 0`. -/
theorem c4_amended_deviation_witness :
    WBC_info.low = some 4.0 ∧ (0 : ℚ) < 4.0 ∧ (3 : ℚ) < 4.0 ∧
    (analyze_parameter "WBC" (Value.num 3) WBC_info).deviation_pct =
      some ((4.0 - 3) / 4.0 * 100) ∧ (0 : ℚ) < (4.0 - 3) / 4.0 * 100 := by
  have hch : ∀ ch, WBC_info.critical_high = some ch → (3 : ℚ) ≤ ch := by
    intro ch hc
    rw [show WBC_info.critical_high = some 30.0 from rfl,
      Option.some.injEq] at hc
    rw [← hc]; norm_num
  have h := c4_amended_deviation.1 "WBC" WBC_info 4.0 3 rfl (by norm_num)
    (by norm_num) hch
  exact ⟨rfl, by norm_num, by norm_num, h.1, h.2⟩

/-- C7: when the status is Normal and both bounds are present with
`high > low`, the deviation is `(value - midpoint)/halfSpan·100`, which
lies in [-100, 100]; in every other Normal case no deviation is
reported. -/
theorem c7_normal_deviation :
    ∀ (n : String) (v : ℚ) (e : RefInfo),
      (analyze_parameter n (Value.num v) e).status = Status.normal →
      ((∀ l h, e.low = some l → e.high = some h → l < h →
          (analyze_parameter n (Value.num v) e).deviation_pct =
            some ((v - (l + h) / 2) / ((h - l) / 2) * 100) ∧
          -100 ≤ (v - (l + h) / 2) / ((h - l) / 2) * 100 ∧
          (v - (l + h) / 2) / ((h - l) / 2) * 100 ≤ 100)
       ∧ ((e.low = none ∨ e.high = none ∨
            ∃ l h, e.low = some l ∧ e.high = some h ∧ h ≤ l) →
          (analyze_parameter n (Value.num v) e).deviation_pct = none)) := by
  intro n v e hst
  have h1 : hitLow e.critical_low v = false := by
    cases hx : hitLow e.critical_low v
    · rfl
    · simp [analyze_parameter, hx] at hst
  have h2 : hitHigh e.critical_high v = false := by
    cases hx : hitHigh e.critical_high v
    · rfl
    · simp [analyze_parameter, h1, hx] at hst
  have h3 : hitLow e.low v = false := by
    cases hx : hitLow e.low v
    · rfl
    · simp [analyze_parameter, h1, h2, hx] at hst
  have h4 : hitHigh e.high v = false := by
    cases hx : hitHigh e.high v
    · rfl
    · simp [analyze_parameter, h1, h2, h3, hx] at hst
  have hdev : (analyze_parameter n (Value.num v) e).deviation_pct =
      normalDeviation e.low e.high v := by
    simp [analyze_parameter, h1, h2, h3, h4]
  constructor
  · intro l h hl hh hlh
    have hvl : l ≤ v := hitLow_eq_false.mp h3 l hl
    have hvh : v ≤ h := hitHigh_eq_false.mp h4 h hh
    have hc : 0 < (h - l) / 2 := by linarith
    refine ⟨?_, ?_, ?_⟩
    · rw [hdev, hl, hh]
      simp [normalDeviation, hlh]
    · have hlb : (-1 : ℚ) ≤ (v - (l + h) / 2) / ((h - l) / 2) :=
        (le_div_iff₀ hc).mpr (by linarith)
      calc (-100 : ℚ) = -1 * 100 := by norm_num
        _ ≤ (v - (l + h) / 2) / ((h - l) / 2) * 100 :=
            mul_le_mul_of_nonneg_right hlb (by norm_num)
    · have hub : (v - (l + h) / 2) / ((h - l) / 2) ≤ 1 :=
        (div_le_one hc).mpr (by linarith)
      calc (v - (l + h) / 2) / ((h - l) / 2) * 100 ≤ 1 * 100 :=
            mul_le_mul_of_nonneg_right hub (by norm_num)
        _ = 100 := by norm_num
  · intro hcase
    rw [hdev]
    rcases hcase with hn | hn | ⟨l, h, hl, hh, hle⟩
    · rw [hn]; simp [normalDeviation]
    · rw [hn]; cases e.low <;> simp [normalDeviation]
    · rw [hl, hh]; simp [normalDeviation, not_lt.mpr hle]

/-- Witness for C7 at WBC = 5 (inside the range [4, 11]): the deviation
is the in-range position and lies in [-100, 100]. -/
theorem c7_normal_deviation_witness :
    (analyze_parameter "WBC" (Value.num 5) WBC_info).status = Status.normal ∧
    (analyze_parameter "WBC" (Value.num 5) WBC_info).deviation_pct =
      some (((5 : ℚ) - (4.0 + 11.0) / 2) / ((11.0 - 4.0) / 2) * 100) ∧
    (-100 : ℚ) ≤ ((5 : ℚ) - (4.0 + 11.0) / 2) / ((11.0 - 4.0) / 2) * 100 ∧
    ((5 : ℚ) - (4.0 + 11.0) / 2) / ((11.0 - 4.0) / 2) * 100 ≤ 100 := by
  have hst : (analyze_parameter "WBC" (Value.num 5) WBC_info).status =
      Status.normal := by
    norm_num [analyze_parameter, hitLow, hitHigh, normalDeviation, WBC_info]
  have h := (c7_normal_deviation "WBC" 5 WBC_info hst).1 4.0 11.0 rfl rfl
    (by norm_num)
  exact ⟨hst, h.1, h.2.1, h.2.2⟩

lemma matchesEntry_congr {s t : String} (h : pyLower s = pyLower t)
    (k : String) (i : RefInfo) : matchesEntry s k i = matchesEntry t k i := by
  have hd : s.data.map charLower = t.data.map charLower :=
    congrArg String.data h
  simp only [matchesEntry, lowerEq, hd]

lemma findRefInfo_congr {s t : String} (h : pyLower s = pyLower t)
    (T : List (String × RefInfo)) : findRefInfo T s = findRefInfo T t := by
  unfold findRefInfo
  congr 1
  funext kv
  exact matchesEntry_congr h kv.1 kv.2

/-- Decidable per-table soundness check: every canonical key and every
alias resolves back (by key) to the entry carrying it. -/
def tableResolves (T : List (String × RefInfo)) : Bool :=
  T.all (fun kv =>
    ((findRefInfo T kv.1).map Prod.fst == some kv.1) &&
      kv.2.aliases.all (fun a => (findRefInfo T a).map Prod.fst == some kv.1))

lemma findRefInfo_eq_of_key {T : List (String × RefInfo)}
    (nd : (T.map Prod.fst).Nodup) {kv : String × RefInfo} (hm : kv ∈ T)
    {s : String} (hk : (findRefInfo T s).map Prod.fst = some kv.1) :
    findRefInfo T s = some kv := by
  obtain ⟨kv', hfind⟩ : ∃ kv', findRefInfo T s = some kv' := by
    cases hx : findRefInfo T s
    · rw [hx] at hk; simp at hk
    · exact ⟨_, rfl⟩
  have hkey : kv'.1 = kv.1 := by rw [hfind] at hk; simpa using hk
  have hmem : kv' ∈ T := List.mem_of_find?_eq_some hfind
  have heq : kv' = kv := List.inj_on_of_nodup_map nd hmem hm hkey
  rw [hfind, heq]

lemma allTables_resolve :
    ∀ T ∈ ALL_TABLES, tableResolves T = true ∧ (T.map Prod.fst).Nodup := by
  decide

/-- C5 amended: resolving a catalog entry's canonical name or any of its
aliases in any letter case (with no whitespace trimming: the raw key must
match exactly up to case) yields that entry, and a raw key that matches
no canonical name and no alias resolves to none. -/
theorem c5_resolution_amended :
    (∀ T, T ∈ ALL_TABLES → ∀ kv, kv ∈ T → ∀ s : String,
        (pyLower s = pyLower kv.1 ∨
          ∃ a, a ∈ kv.2.aliases ∧ pyLower s = pyLower a) →
        findRefInfo T s = some kv)
  ∧ (∀ T, T ∈ ALL_TABLES → ∀ s : String,
        (∀ kv, kv ∈ T → matchesEntry s kv.1 kv.2 = false) →
        findRefInfo T s = none) := by
  refine ⟨?_, ?_⟩
  · intro T hT kv hkv s hs
    obtain ⟨hres, hnd⟩ := allTables_resolve T hT
    have hres' := (List.all_eq_true.mp hres) kv hkv
    rw [Bool.and_eq_true] at hres'
    rcases hs with h | ⟨a, ha, h⟩
    · rw [findRefInfo_congr h]
      exact findRefInfo_eq_of_key hnd hkv (by simpa using hres'.1)
    · rw [findRefInfo_congr h]
      have halias := (List.all_eq_true.mp hres'.2) a ha
      exact findRefInfo_eq_of_key hnd hkv (by simpa using halias)
  · intro T hT s hnone
    unfold findRefInfo
    apply List.find?_eq_none.mpr
    intro kv hkv
    simp [hnone kv hkv]

/-- Witness for C5 amended: the upper-cased alias "HGB" resolves to the
Hemoglobin entry of the CBC table. -/
theorem c5_resolution_amended_witness :
    ("Hemoglobin", Hemoglobin_info) ∈ CBC_REFERENCE_RANGES ∧
    "Hgb" ∈ Hemoglobin_info.aliases ∧
    pyLower "HGB" = pyLower "Hgb" ∧
    findRefInfo CBC_REFERENCE_RANGES "HGB" =
      some ("Hemoglobin", Hemoglobin_info) := by
  refine ⟨?_, ?_, rfl, ?_⟩
  · simp [CBC_REFERENCE_RANGES]
  · simp [Hemoglobin_info]
  · exact c5_resolution_amended.1 CBC_REFERENCE_RANGES (by simp [ALL_TABLES])
      ("Hemoglobin", Hemoglobin_info) (by simp [CBC_REFERENCE_RANGES]) "HGB"
      (Or.inr ⟨"Hgb", by simp [Hemoglobin_info], rfl⟩)

/-- C5 counterexample: the claim as stated also requires keys to resolve
after trimming surrounding whitespace, but the code does not strip —
`" WBC "` trims to the canonical name `"WBC"` yet resolves to none. -/
theorem c5_counterexample :
    ¬ (∀ T, T ∈ ALL_TABLES → ∀ kv, kv ∈ T → ∀ s : String,
         pyLower (pyStrip s) = pyLower kv.1 → findRefInfo T s = some kv) := by
  intro hclaim
  have h := hclaim CBC_REFERENCE_RANGES (by simp [ALL_TABLES])
    ("WBC", WBC_info) (by simp [CBC_REFERENCE_RANGES]) " WBC " rfl
  have hnone : findRefInfo CBC_REFERENCE_RANGES " WBC " = none := rfl
  rw [hnone] at h
  exact Option.noConfusion h

/-- C6: an input whose keys all fail to resolve produces an empty
analysis-results collection — the keys are silently dropped (total
function, no exception path) — and in particular
`{"FooBarParam": 5.0}` yields no results. -/
theorem c6_unmatched_keys_dropped :
    (∀ (ranges : List (String × RefInfo)) (ps : List (String × Value)),
        (∀ p, p ∈ ps → findRefInfo ranges p.1 = none) →
        display_parameters_grid ranges ps = [])
  ∧ display_parameters_grid CBC_REFERENCE_RANGES
      [("FooBarParam", Value.num 5)] = [] := by
  refine ⟨?_, rfl⟩
  intro ranges ps h
  apply List.filterMap_eq_nil_iff.mpr
  intro p hp
  rw [h p hp]

/-- Witness for C6: the general part applied to the concrete unmatched
input `{"FooBarParam": 5.0}`. -/
theorem c6_unmatched_keys_dropped_witness :
    display_parameters_grid CBC_REFERENCE_RANGES
      [("FooBarParam", Value.num 5)] = [] :=
  c6_unmatched_keys_dropped.1 CBC_REFERENCE_RANGES
    [("FooBarParam", Value.num 5)]
    (by
      intro p hp
      rw [List.mem_singleton] at hp
      rw [hp]
      rfl)

/-- `rbc = cbc_params.get('RBC', 0)` in `get_sample_quality_assessment`. -/
def rbcOf (ps : List (String × ℚ)) : ℚ := getD0 ps "RBC"

/-- `hb = get('Hemoglobin',0) or get('Hb',0) or get('Hgb',0)`. -/
def hbOf (ps : List (String × ℚ)) : ℚ :=
  pyOr (getD0 ps "Hemoglobin") (pyOr (getD0 ps "Hb") (getD0 ps "Hgb"))

/-- `hct = get('Hematocrit',0) or get('HCT',0) or get('PCV',0)`. -/
def hctOf (ps : List (String × ℚ)) : ℚ :=
  pyOr (getD0 ps "Hematocrit") (pyOr (getD0 ps "HCT") (getD0 ps "PCV"))

/-- `mcv = cbc_params.get('MCV', 0)`. -/
def mcvOf (ps : List (String × ℚ)) : ℚ := getD0 ps "MCV"

/-- `mchc = cbc_params.get('MCHC', 0)`. -/
def mchcOf (ps : List (String × ℚ)) : ℚ := getD0 ps "MCHC"

/-- `diff_sum`: the sum of the five differential percentages. -/
def diffSumOf (ps : List (String × ℚ)) : ℚ :=
  (["Neutrophils", "Lymphocytes", "Monocytes", "Eosinophils",
    "Basophils"].map (getD0 ps)).sum

/-- The Rule-of-Threes Hb deviation `|hb - rbc*3| / (rbc*3) * 100`. -/
def hbRuleDeviation (ps : List (String × ℚ)) : ℚ :=
  |hbOf ps - rbcOf ps * 3| / (rbcOf ps * 3) * 100

/-- Selector for the Rule-of-Threes (RBC × 3 ≈ Hb) issue message. -/
def isHbRuleIssue : QualityMsg → Bool
  | QualityMsg.ruleOfThreesHbIssue _ _ _ => true
  | _ => false

/-- Selector for the Rule-of-Threes (RBC × 3 ≈ Hb) pass note. -/
def isHbRulePass : QualityMsg → Bool
  | QualityMsg.ruleOfThreesHbPass _ _ _ => true
  | _ => false

lemma quality_issues_eq (ps : List (String × ℚ)) :
    (get_sample_quality_assessment ps).issues =
      (ruleOfThreesHb (rbcOf ps) (hbOf ps)).1 ++
        (ruleOfThreesHct (hbOf ps) (hctOf ps)).1 ++ mchcCheck (mchcOf ps) ++
        calcHctCheck (rbcOf ps) (hbOf ps) (hctOf ps) (mcvOf ps) ++
        (diffSumCheck (diffSumOf ps)).1 := rfl

lemma quality_notes_eq (ps : List (String × ℚ)) :
    (get_sample_quality_assessment ps).notes =
      (ruleOfThreesHb (rbcOf ps) (hbOf ps)).2 ++
        (ruleOfThreesHct (hbOf ps) (hctOf ps)).2 ++
        (diffSumCheck (diffSumOf ps)).2 := rfl

lemma ruleOfThreesHct_no_hbmsg (hb hct : ℚ) :
    (ruleOfThreesHct hb hct).1.any isHbRuleIssue = false ∧
    (ruleOfThreesHct hb hct).2.any isHbRulePass = false := by
  simp only [ruleOfThreesHct]
  split_ifs <;> simp [isHbRuleIssue, isHbRulePass]

lemma mchcCheck_no_hbmsg (mchc : ℚ) :
    (mchcCheck mchc).any isHbRuleIssue = false := by
  simp only [mchcCheck]
  split_ifs <;> simp [isHbRuleIssue]

lemma calcHctCheck_no_hbmsg (rbc hb hct mcv : ℚ) :
    (calcHctCheck rbc hb hct mcv).any isHbRuleIssue = false := by
  simp only [calcHctCheck]
  split_ifs <;> simp [isHbRuleIssue]

lemma diffSumCheck_no_hbmsg (d : ℚ) :
    (diffSumCheck d).1.any isHbRuleIssue = false ∧
    (diffSumCheck d).2.any isHbRulePass = false := by
  simp only [diffSumCheck]
  split_ifs <;> simp [isHbRuleIssue, isHbRulePass]

lemma ruleOfThreesHb_iff {rbc hb : ℚ} (hr : 0 < rbc) (hh : 0 < hb) :
    ((ruleOfThreesHb rbc hb).1.any isHbRuleIssue = true ↔
      10 < |hb - rbc * 3| / (rbc * 3) * 100) ∧
    ((ruleOfThreesHb rbc hb).2.any isHbRulePass = true ↔
      |hb - rbc * 3| / (rbc * 3) * 100 ≤ 10) := by
  have hexp : (0 : ℚ) < rbc * 3 := by linarith
  by_cases hdev : 10 < |hb - rbc * 3| / (rbc * 3) * 100
  · simp [ruleOfThreesHb, hr, hh, hexp, hdev, isHbRuleIssue, not_le.mpr hdev]
  · simp [ruleOfThreesHb, hr, hh, hexp, hdev, isHbRulePass, not_lt.mp hdev]


lemma quality_ex1_rbc : rbcOf [("RBC", 3), ("Hemoglobin", 12)] = 3 := rfl

lemma quality_ex1_hb : hbOf [("RBC", 3), ("Hemoglobin", 12)] = 12 := rfl

lemma quality_ex1_hct : hctOf [("RBC", 3), ("Hemoglobin", 12)] = 0 := rfl

lemma quality_ex1_mcv : mcvOf [("RBC", 3), ("Hemoglobin", 12)] = 0 := rfl

lemma quality_ex1_mchc : mchcOf [("RBC", 3), ("Hemoglobin", 12)] = 0 := rfl

lemma quality_ex1_diff : diffSumOf [("RBC", 3), ("Hemoglobin", 12)] = 0 := by
  show ([(0 : ℚ), 0, 0, 0, 0]).sum = 0
  norm_num

lemma quality_ex2_rbc :
    rbcOf [("RBC", 31 / 10), ("Hemoglobin", 19 / 2)] = 31 / 10 := rfl

lemma quality_ex2_hb :
    hbOf [("RBC", 31 / 10), ("Hemoglobin", 19 / 2)] = 19 / 2 := by
  show pyOr (19 / 2) (pyOr 0 0) = 19 / 2
  norm_num [pyOr]

lemma quality_ex2_hct :
    hctOf [("RBC", 31 / 10), ("Hemoglobin", 19 / 2)] = 0 := rfl

lemma quality_ex2_mcv :
    mcvOf [("RBC", 31 / 10), ("Hemoglobin", 19 / 2)] = 0 := rfl

lemma quality_ex2_mchc :
    mchcOf [("RBC", 31 / 10), ("Hemoglobin", 19 / 2)] = 0 := rfl

lemma quality_ex2_diff :
    diffSumOf [("RBC", 31 / 10), ("Hemoglobin", 19 / 2)] = 0 := by
  show ([(0 : ℚ), 0, 0, 0, 0]).sum = 0
  norm_num

lemma ruleOfThreesHb_ex1 :
    ruleOfThreesHb 3 12 =
      ([QualityMsg.ruleOfThreesHbIssue 9 12 (100 / 3)], []) := by
  norm_num [ruleOfThreesHb]

lemma ruleOfThreesHb_ex2 :
    ruleOfThreesHb (31 / 10) (19 / 2) =
      ([], [QualityMsg.ruleOfThreesHbPass (31 / 10) (93 / 10) (19 / 2)]) := by
  norm_num [ruleOfThreesHb]
  rw [show |(1 : ℚ) / 5| = 1 / 5 from abs_of_nonneg (by norm_num)]
  norm_num

lemma ruleOfThreesHct_hct0 (hb : ℚ) : ruleOfThreesHct hb 0 = ([], []) := by
  norm_num [ruleOfThreesHct]

lemma mchcCheck_zero : mchcCheck 0 = [] := by
  norm_num [mchcCheck]

lemma calcHctCheck_mcv0 (rbc hb hct : ℚ) :
    calcHctCheck rbc hb hct 0 = [] := by
  norm_num [calcHctCheck]

lemma diffSumCheck_zero : diffSumCheck 0 = ([], []) := by
  norm_num [diffSumCheck]

/-- C8: whenever RBC and Hemoglobin are both present and positive, the
Rule-of-Threes issue is flagged iff `|hb - 3·rbc|/(3·rbc)·100 > 10`, a
pass note is recorded iff the deviation is ≤ 10, and in particular
RBC=3, Hb=12 (deviation 33.3%) flags the issue while RBC=3.1, Hb=9.5
(deviation ≈2.2%) records a pass with no issue. -/
theorem c8_rule_of_threes :
    (∀ ps : List (String × ℚ), 0 < rbcOf ps → 0 < hbOf ps →
        ((get_sample_quality_assessment ps).issues.any isHbRuleIssue = true ↔
          10 < hbRuleDeviation ps) ∧
        ((get_sample_quality_assessment ps).notes.any isHbRulePass = true ↔
          hbRuleDeviation ps ≤ 10))
  ∧ (get_sample_quality_assessment [("RBC", 3), ("Hemoglobin", 12)]).issues =
      [QualityMsg.ruleOfThreesHbIssue 9 12 (100 / 3)]
  ∧ (get_sample_quality_assessment
      [("RBC", 31 / 10), ("Hemoglobin", 19 / 2)]).issues = []
  ∧ (get_sample_quality_assessment
      [("RBC", 31 / 10), ("Hemoglobin", 19 / 2)]).notes =
      [QualityMsg.ruleOfThreesHbPass (31 / 10) (93 / 10) (19 / 2)] := by
  refine ⟨?_, ?_, ?_, ?_⟩
  · intro ps hr hh
    have hmain := ruleOfThreesHb_iff hr hh
    constructor
    · rw [quality_issues_eq]
      simp only [List.any_append, (ruleOfThreesHct_no_hbmsg _ _).1,
        mchcCheck_no_hbmsg, calcHctCheck_no_hbmsg,
        (diffSumCheck_no_hbmsg _).1, Bool.or_false]
      exact hmain.1
    · rw [quality_notes_eq]
      simp only [List.any_append, (ruleOfThreesHct_no_hbmsg _ _).2,
        (diffSumCheck_no_hbmsg _).2, Bool.or_false]
      exact hmain.2
  · rw [quality_issues_eq, quality_ex1_rbc, quality_ex1_hb, quality_ex1_hct,
      quality_ex1_mcv, quality_ex1_mchc, quality_ex1_diff,
      ruleOfThreesHb_ex1, ruleOfThreesHct_hct0, mchcCheck_zero,
      calcHctCheck_mcv0, diffSumCheck_zero]
    rfl
  · rw [quality_issues_eq, quality_ex2_rbc, quality_ex2_hb, quality_ex2_hct,
      quality_ex2_mcv, quality_ex2_mchc, quality_ex2_diff,
      ruleOfThreesHb_ex2, ruleOfThreesHct_hct0, mchcCheck_zero,
      calcHctCheck_mcv0, diffSumCheck_zero]
    rfl
  · rw [quality_notes_eq, quality_ex2_rbc, quality_ex2_hb, quality_ex2_hct,
      quality_ex2_diff, ruleOfThreesHb_ex2, ruleOfThreesHct_hct0,
      diffSumCheck_zero]
    rfl

/-- Witness for C8: at the concrete input RBC=3, Hb=12 both hypotheses
hold and the Rule-of-Threes issue is flagged. -/
theorem c8_rule_of_threes_witness :
    0 < rbcOf [("RBC", 3), ("Hemoglobin", 12)] ∧
    0 < hbOf [("RBC", 3), ("Hemoglobin", 12)] ∧
    (get_sample_quality_assessment
      [("RBC", 3), ("Hemoglobin", 12)]).issues.any isHbRuleIssue = true := by
  have h1 : 0 < rbcOf [("RBC", 3), ("Hemoglobin", 12)] := by
    rw [quality_ex1_rbc]; norm_num
  have h2 : 0 < hbOf [("RBC", 3), ("Hemoglobin", 12)] := by
    rw [quality_ex1_hb]; norm_num
  refine ⟨h1, h2, ?_⟩
  refine ((c8_rule_of_threes.1 _ h1 h2).1).mpr ?_
  rw [show hbRuleDeviation [("RBC", 3), ("Hemoglobin", 12)] =
    |(12 : ℚ) - 3 * 3| / (3 * 3) * 100 from by
      rw [hbRuleDeviation, quality_ex1_rbc, quality_ex1_hb]]
  norm_num

/-- C9: the sample-quality assessment always returns the
`{is_reliable, issues, notes}` structure with `is_reliable` true exactly
when the issues list is empty. -/
theorem c9_reliability_iff_no_issues :
    ∀ ps : List (String × ℚ),
      get_sample_quality_assessment ps =
        { is_reliable := (get_sample_quality_assessment ps).is_reliable,
          issues := (get_sample_quality_assessment ps).issues,
          notes := (get_sample_quality_assessment ps).notes } ∧
      ((get_sample_quality_assessment ps).is_reliable = true ↔
        (get_sample_quality_assessment ps).issues = []) := by
  intro ps
  refine ⟨rfl, ?_⟩
  show (quality_issues_notes ps).1.isEmpty = true ↔
    (quality_issues_notes ps).1 = []
  exact List.isEmpty_iff

/-- C10: the manual-entry form drops every parameter whose entered value
is exactly 0 before analysis, so no analysis result is ever produced for
a zero value — although Basophils = 0 would itself classify as Normal
(its range [0, 1] contains 0). -/
theorem c10_zero_values_removed :
    (∀ (ps : List (String × ℚ)) (p : String × ℚ),
        p ∈ manual_entry_filter ps → p.2 ≠ 0)
  ∧ (∀ (ranges : List (String × RefInfo)) (ps : List (String × ℚ))
        (r : String × AnalysisResult),
        r ∈ display_parameters_grid ranges
          ((manual_entry_filter ps).map (fun p => (p.1, Value.num p.2))) →
        r.2.value ≠ Value.num 0)
  ∧ manual_entry_filter [("Basophils", 0)] = []
  ∧ (analyze_parameter "Basophils" (Value.num 0) Basophils_info).status =
      Status.normal := by
  refine ⟨?_, ?_, ?_, ?_⟩
  · intro ps p hp
    have := List.of_mem_filter hp
    intro h0
    rw [h0] at this
    simp at this
  · intro ranges ps r hr
    simp only [display_parameters_grid, List.mem_filterMap] at hr
    obtain ⟨q, hq, hmatch⟩ := hr
    rcases hfind : findRefInfo ranges q.1 with _ | kv
    · rw [hfind] at hmatch; exact absurd hmatch (by simp)
    · rw [hfind] at hmatch
      have hr2 : r.2 = analyze_parameter q.1 q.2 kv.2 := by
        have := Option.some.inj hmatch
        rw [← this]
      have hval : r.2.value = q.2 := by
        rw [hr2]
        cases hv : q.2
        · simp only [analyze_parameter]
          split_ifs <;> rfl
        · rfl
      rw [List.mem_map] at hq
      obtain ⟨p, hpmem, hpeq⟩ := hq
      have hpz : p.2 ≠ 0 := by
        have := List.of_mem_filter hpmem
        intro h0
        rw [h0] at this
        simp at this
      rw [hval, ← hpeq]
      intro hcontra
      exact hpz (Value.num.inj hcontra)
  · norm_num [manual_entry_filter]
  · norm_num [analyze_parameter, hitLow, hitHigh, normalDeviation,
      Basophils_info]

/-- Witness for C10: a concrete manual entry `{"WBC": 5}` survives the
zero filter and its analysis result does not carry the value 0. -/
theorem c10_zero_values_removed_witness :
    ("WBC", analyze_parameter "WBC" (Value.num 5) WBC_info) ∈
      display_parameters_grid CBC_REFERENCE_RANGES
        ((manual_entry_filter [("WBC", 5)]).map
          (fun p => (p.1, Value.num p.2))) ∧
    (analyze_parameter "WBC" (Value.num 5) WBC_info).value ≠ Value.num 0 := by
  have hfil : manual_entry_filter [("WBC", (5 : ℚ))] = [("WBC", 5)] := rfl
  have hgrid : display_parameters_grid CBC_REFERENCE_RANGES
      [("WBC", Value.num 5)] =
      [("WBC", analyze_parameter "WBC" (Value.num 5) WBC_info)] := rfl
  have hmem : ("WBC", analyze_parameter "WBC" (Value.num 5) WBC_info) ∈
      display_parameters_grid CBC_REFERENCE_RANGES
        ((manual_entry_filter [("WBC", 5)]).map
          (fun p => (p.1, Value.num p.2))) := by
    rw [hfil]
    show _ ∈ display_parameters_grid CBC_REFERENCE_RANGES
      [("WBC", Value.num 5)]
    rw [hgrid]
    exact List.mem_singleton.mpr rfl
  exact ⟨hmem, c10_zero_values_removed.2.1 CBC_REFERENCE_RANGES [("WBC", 5)]
    ("WBC", analyze_parameter "WBC" (Value.num 5) WBC_info) hmem⟩
